import Mathlib

/-!
Verification of `sdk/hooks_repository_event.go` (repository webhook event
lifecycle types of the CDS sdk): a shallow embedding of the Go source into
Lean 4, followed by theorems settling the specification claims about
`IsValidForEventName`, `IsTerminated`, `ToInsightReport` and the webhook
secret derivation functions.

Go machine integers (`int64`) are modelled as `Int`; byte slices as
`List Nat` (each element < 256); Go strings as `String` (their `[]byte`
view is the UTF-8 byte list `strBytes`).
-/

namespace CdsSdk

/-! ## Bytes and string helpers (Go `[]byte(s)`, `strconv`, `net/url`, `fmt %q`) -/

/-- UTF-8 encoding of one Unicode scalar value, as its list of bytes.
Mirrors what Go's `[]byte(string)` conversion produces for each rune. -/
def utf8Bytes (c : Char) : List Nat :=
  let n := c.toNat
  if n < 0x80 then [n]
  else if n < 0x800 then [0xC0 + n / 64, 0x80 + n % 64]
  else if n < 0x10000 then [0xE0 + n / 4096, 0x80 + (n / 64) % 64, 0x80 + n % 64]
  else [0xF0 + n / 262144, 0x80 + (n / 4096) % 64, 0x80 + (n / 64) % 64, 0x80 + n % 64]

/-- The UTF-8 bytes of a string: Go's `[]byte(s)`. -/
def strBytes (s : String) : List Nat :=
  s.data.flatMap utf8Bytes

/-- Upper-case hexadecimal digit, as used by Go's `net/url` escaping. -/
def hexUpper (n : Nat) : String :=
  String.singleton ("0123456789ABCDEF".data.getD n '0')

/-- Lower-case hexadecimal digit, as used by Go's `strconv` quoting. -/
def hexLower (n : Nat) : String :=
  String.singleton ("0123456789abcdef".data.getD n '0')

/-- Go `net/url.shouldEscape(c, encodePathSegment)`: a byte is kept verbatim
iff it is alphanumeric, an RFC 3986 unreserved mark `- _ . ~`, or one of the
reserved characters `$ & + : = ? @` that path segments may contain; every
other byte (including `/ ; ,` and all non-ASCII bytes) is percent-escaped. -/
def pathShouldEscape (b : Nat) : Bool :=
  if (0x61 ≤ b ∧ b ≤ 0x7A) ∨ (0x41 ≤ b ∧ b ≤ 0x5A) ∨ (0x30 ≤ b ∧ b ≤ 0x39) then false
  else if b = 0x2D ∨ b = 0x5F ∨ b = 0x2E ∨ b = 0x7E then false
  else if b = 0x24 ∨ b = 0x26 ∨ b = 0x2B ∨ b = 0x3A ∨ b = 0x3D ∨ b = 0x3F ∨ b = 0x40 then false
  else true

/-- Go `net/url.PathEscape`: percent-escape the UTF-8 bytes of `s` so it can
be placed inside a URL path segment. -/
def pathEscape (s : String) : String :=
  String.join ((strBytes s).map (fun b =>
    if pathShouldEscape b then "%" ++ hexUpper (b / 16) ++ hexUpper (b % 16)
    else String.singleton (Char.ofNat b)))

/-- Escaping of one character under Go's `%q` string verb (`strconv.Quote`):
quote and backslash are backslash-escaped, printable ASCII is kept, the
standard control escapes are used, remaining ASCII is `\xhh`. Characters
at or above U+0080 are kept verbatim (Go keeps exactly the Unicode-printable
ones; the non-printable remainder is approximated here as kept, which is
byte-for-byte exact on all ASCII data such as this file's event names). -/
def goQuoteChar (c : Char) : String :=
  let n := c.toNat
  if n = 0x22 then "\\\""
  else if n = 0x5C then "\\\\"
  else if 0x20 ≤ n ∧ n < 0x7F then String.singleton c
  else if n = 7 then "\\a"
  else if n = 8 then "\\b"
  else if n = 12 then "\\f"
  else if n = 10 then "\\n"
  else if n = 13 then "\\r"
  else if n = 9 then "\\t"
  else if n = 11 then "\\v"
  else if n < 0x80 then "\\x" ++ hexLower (n / 16) ++ hexLower (n % 16)
  else String.singleton c

/-- Go's `%q` formatting of a string value: the quoted, escaped literal. -/
def goQuote (s : String) : String :=
  "\"" ++ String.join (s.data.map goQuoteChar) ++ "\""

/-! ## Event name / type classification (`hooks_repository_event.go:14-78`) -/

/-- Go `type WorkflowHookEventName string`. -/
abbrev WorkflowHookEventName := String

/-- Go `type WorkflowHookEventType string`. -/
abbrev WorkflowHookEventType := String

def WorkflowHookEventNameWorkflowUpdate : WorkflowHookEventName := "workflow-update"
def WorkflowHookEventNameModelUpdate : WorkflowHookEventName := "model-update"
def WorkflowHookEventNamePush : WorkflowHookEventName := "push"
def WorkflowHookEventNameManual : WorkflowHookEventName := "manual"
def WorkflowHookEventNameWebHook : WorkflowHookEventName := "webhook"
def WorkflowHookEventNameWorkflowRun : WorkflowHookEventName := "workflow-run"
def WorkflowHookEventNameScheduler : WorkflowHookEventName := "scheduler"

def WorkflowHookEventNamePullRequest : WorkflowHookEventName := "pull-request"
def WorkflowHookEventTypePullRequestOpened : WorkflowHookEventType := "opened"
def WorkflowHookEventTypePullRequestReopened : WorkflowHookEventType := "reopened"
def WorkflowHookEventTypePullRequestClosed : WorkflowHookEventType := "closed"
def WorkflowHookEventTypePullRequestEdited : WorkflowHookEventType := "edited"

def WorkflowHookEventNamePullRequestComment : WorkflowHookEventName := "pull-request-comment"
def WorkflowHookEventTypePullRequestCommentCreated : WorkflowHookEventType := "created"
def WorkflowHookEventTypePullRequestCommentDeleted : WorkflowHookEventType := "deleted"
def WorkflowHookEventTypePullRequestCommentEdited : WorkflowHookEventType := "edited"

def HookEventStatusScheduled : String := "Scheduled"
def HookEventStatusAnalysis : String := "Analyzing"
def HookEventStatusCheckAnalysis : String := "CheckAnalyzing"
def HookEventStatusWorkflowHooks : String := "WorkflowHooks"
def HookEventStatusSignKey : String := "SignKey"
def HookEventStatusGitInfo : String := "GitInfo"
def HookEventStatusWorkflow : String := "Workflow"
def HookEventStatusDone : String := "Done"
def HookEventStatusError : String := "Error"
def HookEventStatusSkipped : String := "Skipped"

def HookEventWorkflowStatusScheduled : String := "Scheduled"
def HookEventWorkflowStatusSkipped : String := "Skipped"
def HookEventWorkflowStatusError : String := "Error"
def HookEventWorkflowStatusDone : String := "Done"

/-- Modelled from the spec (§4.3): the terminal success status of a workflow
run (`sdk.V2WorkflowRunStatusSuccess`, declared outside this file), to which
`ToInsightReport` compares a dispatch's status when choosing its link. -/
def V2WorkflowRunStatusSuccess : String := "Success"

/-- Go `func (t WorkflowHookEventType) IsValidForEventName(n WorkflowHookEventName) bool`
(`hooks_repository_event.go:18-34`): a switch on the name; `pull-request` and
`pull-request-comment` accept only their enumerated types (falling through to
the final `return false` otherwise); every other name requires an empty type. -/
def WorkflowHookEventType.IsValidForEventName
    (t : WorkflowHookEventType) (n : WorkflowHookEventName) : Bool :=
  if n = WorkflowHookEventNamePullRequest then
    if t = WorkflowHookEventTypePullRequestOpened ∨ t = WorkflowHookEventTypePullRequestReopened
        ∨ t = WorkflowHookEventTypePullRequestClosed ∨ t = WorkflowHookEventTypePullRequestEdited
    then true
    else false
  else if n = WorkflowHookEventNamePullRequestComment then
    if t = WorkflowHookEventTypePullRequestCommentCreated
        ∨ t = WorkflowHookEventTypePullRequestCommentDeleted
        ∨ t = WorkflowHookEventTypePullRequestCommentEdited
    then true
    else false
  else
    t == ""

/-! ## Data model (`hooks_repository_event.go:132-348`)

Fields whose types are declared outside this source file and that are never
read by any function verified here (`Body`'s sibling lists `ModelUpdated`,
`WorkflowUpdated`, `SkippedWorkflows`, `SkippedHooks` of type
`[]EntityFullName` / `[]V2WorkflowHook`, the `Initiator *V2Initiator`
pointers, `SigningKeyOperationStatus : OperationStatus`, and
`Data : V2WorkflowHookData`) are omitted from the structures. -/

/-- Go `HookRepositoryEventAnalysis` (`hooks_repository_event.go:342-348`). -/
structure HookRepositoryEventAnalysis where
  AnalyzeID : String := ""
  Status : String := ""
  ProjectKey : String := ""
  Error : String := ""
  FindRetryCount : Int := 0
  deriving Repr, DecidableEq

/-- Go `HookRepositoryEventWorkflow` (`hooks_repository_event.go:241-272`).
The Go field `Type` is rendered `Typ` (`Type` is reserved in Lean). -/
structure HookRepositoryEventWorkflow where
  ProjectKey : String := ""
  VCSIdentifier : String := ""
  RepositoryIdentifier : String := ""
  WorkflowName : String := ""
  EntityID : String := ""
  Ref : String := ""
  Commit : String := ""
  Typ : String := ""
  Status : String := ""
  Error : String := ""
  TargetCommit : String := ""
  ModelFullName : String := ""
  PathFilters : List String := []
  RunID : String := ""
  RunNumber : Int := 0
  SemverCurrent : String := ""
  SemverNext : String := ""
  UpdatedFiles : List String := []
  OperationUUID : String := ""
  OperationError : String := ""
  LastCheck : Int := 0
  deriving Repr, DecidableEq

/-- Go `HookRepositoryEventExtractedDataManual` (`hooks_repository_event.go:306-312`). -/
structure HookRepositoryEventExtractedDataManual where
  Project : String := ""
  Workflow : String := ""
  TargetCommit : String := ""
  TargetBranch : String := ""
  TargetTag : String := ""
  deriving Repr, DecidableEq

/-- Go `HookRepositoryEventExtractedDataScheduler` (`hooks_repository_event.go:323-330`). -/
structure HookRepositoryEventExtractedDataScheduler where
  TargetVCS : String := ""
  TargetRepo : String := ""
  TargetWorkflow : String := ""
  TargetProject : String := ""
  Cron : String := ""
  Timezone : String := ""
  deriving Repr, DecidableEq

/-- Go `HookRepositoryEventExtractedDataWorkflowRun` (`hooks_repository_event.go:314-321`). -/
structure HookRepositoryEventExtractedDataWorkflowRun where
  Project : String := ""
  Workflow : String := ""
  WorkflowRunID : String := ""
  TargetVCS : String := ""
  TargetRepository : String := ""
  OutgoingHookEventUUID : String := ""
  deriving Repr, DecidableEq

/-- Go `HookRepositoryEventExtractedDataWebHook` (`hooks_repository_event.go:298-304`). -/
structure HookRepositoryEventExtractedDataWebHook where
  Project : String := ""
  VCS : String := ""
  Repository : String := ""
  Workflow : String := ""
  ID : String := ""
  deriving Repr, DecidableEq

/-- Go `HookRepositoryEventExtractData` (`hooks_repository_event.go:278-296`). -/
structure HookRepositoryEventExtractData where
  CDSEventName : WorkflowHookEventName := ""
  CDSEventType : WorkflowHookEventType := ""
  Commit : String := ""
  CommitFrom : String := ""
  CommitMessage : String := ""
  CommitAuthor : String := ""
  CommitAuthorEmail : String := ""
  Paths : List String := []
  Ref : String := ""
  PullRequestID : Int := 0
  PullRequestRefTo : String := ""
  Manual : HookRepositoryEventExtractedDataManual := {}
  DeprecatedAdminMFA : Bool := false
  Scheduler : HookRepositoryEventExtractedDataScheduler := {}
  WorkflowRun : HookRepositoryEventExtractedDataWorkflowRun := {}
  WebHook : HookRepositoryEventExtractedDataWebHook := {}
  HookProjectKey : String := ""
  deriving Repr, DecidableEq

/-- Go `HookRepositoryEvent` (`hooks_repository_event.go:132-158`). Field
defaults are the Go zero values. -/
structure HookRepositoryEvent where
  UUID : String := ""
  Created : Int := 0
  EventName : WorkflowHookEventName := ""
  EventType : WorkflowHookEventType := ""
  VCSServerName : String := ""
  RepositoryName : String := ""
  Body : List Nat := []
  ExtractData : HookRepositoryEventExtractData := {}
  Status : String := ""
  ProcessingTimestamp : Int := 0
  LastUpdate : Int := 0
  LastError : String := ""
  NbErrors : Int := 0
  Analyses : List HookRepositoryEventAnalysis := []
  WorkflowHooks : List HookRepositoryEventWorkflow := []
  DeprecatedUserID : String := ""
  DeprecatedUsername : String := ""
  SignKey : String := ""
  SigningKeyOperation : String := ""
  deriving Repr, DecidableEq

/-- Go `func (h *HookRepositoryEvent) IsTerminated() bool`
(`hooks_repository_event.go:160-162`). -/
def HookRepositoryEvent.IsTerminated (h : HookRepositoryEvent) : Bool :=
  h.Status == HookEventStatusDone || h.Status == HookEventStatusError
    || h.Status == HookEventStatusSkipped

/-- Go `func (wh *HookRepositoryEventWorkflow) IsTerminated() bool`
(`hooks_repository_event.go:274-276`). -/
def HookRepositoryEventWorkflow.IsTerminated (wh : HookRepositoryEventWorkflow) : Bool :=
  wh.Status == HookEventWorkflowStatusError || wh.Status == HookEventWorkflowStatusSkipped
    || wh.Status == HookEventWorkflowStatusDone

/-- Go `func (h *HookRepositoryEvent) GetFullName() string`
(`hooks_repository_event.go:338-340`). -/
def HookRepositoryEvent.GetFullName (h : HookRepositoryEvent) : String :=
  h.VCSServerName ++ "/" ++ h.RepositoryName ++ "/" ++ h.UUID

/-! ## Insight report (`hooks_repository_event.go:164-239`) -/

/-- Modelled from the spec (§6): one entry of the produced report, a record
`{title, kind ∈ {LINK, TEXT}, text, optional href}` (`sdk.VCSInsightData`,
declared outside this file). The Go field `Type` is rendered `Typ`. -/
structure VCSInsightData where
  Title : String := ""
  Typ : String := ""
  Text : String := ""
  Href : String := ""
  deriving Repr, DecidableEq

/-- Modelled from the spec (§4.3/§6): the report structure
`Report{title, detail, items}` (`sdk.VCSInsight`, declared outside this file). -/
structure VCSInsight where
  Title : String := ""
  Detail : String := ""
  Datas : List VCSInsightData := []
  deriving Repr, DecidableEq

/-- The detail text built at the top of `ToInsightReport`
(`hooks_repository_event.go:165-178`): a header from the event's name
(formatted with Go's `%q`), uuid and status; then either the last error
(status not Done) or one line per analysis with a non-empty error (status
Done), accumulated with `+=` over the `Analyses` slice. -/
def insightDetail (h : HookRepositoryEvent) : String :=
  let d := "Event " ++ goQuote h.EventName ++ " (" ++ h.UUID ++ "): " ++ h.Status
  if h.Status ≠ HookEventStatusDone then
    d ++ "\n\n" ++ h.LastError
  else
    h.Analyses.foldl
      (fun d a =>
        if a.Error ≠ "" then d ++ ("\n\nOn project " ++ a.ProjectKey ++ ": " ++ a.Error) else d)
      d

/-- The per-analysis report item (the struct literal repeated at
`hooks_repository_event.go:183-188` and `194-199`). -/
def analysisInsightData (h : HookRepositoryEvent) (uiURL : String)
    (a : HookRepositoryEventAnalysis) : VCSInsightData :=
  { Title := "Analysis on " ++ a.ProjectKey
    Typ := "LINK"
    Text := a.Status
    Href := uiURL ++ "/project/" ++ a.ProjectKey ++ "/explore/vcs/" ++ h.VCSServerName
      ++ "/repository/" ++ pathEscape h.RepositoryName ++ "/settings" }

/-- The analysis section of the report's `Datas`
(`hooks_repository_event.go:180-207`): Go's
`if len < 6 {one item per analysis} else if len > 0 {first analysis only}
else {a TEXT item with count 0}` chain. The final branch (the `[]` case,
reachable in Go only when `len(Analyses) ≥ 6` and `len(Analyses) = 0`) is
dead code there as here. -/
def insightAnalysisDatas (h : HookRepositoryEvent) (uiURL : String) : List VCSInsightData :=
  if h.Analyses.length < 6 then
    h.Analyses.map (analysisInsightData h uiURL)
  else
    match h.Analyses with
    | a :: _ => [analysisInsightData h uiURL a]
    | [] => [{ Title := "Nb of Analysis triggered", Typ := "TEXT", Text := toString (0 : Nat) }]

/-- The per-dispatch report item (`hooks_repository_event.go:211-224`):
titled `<workflowName> #<runNumber>`, linking to the run view when the
dispatch status is the run success status and to the repository settings
view otherwise. -/
def workflowInsightData (h : HookRepositoryEvent) (uiURL : String)
    (w : HookRepositoryEventWorkflow) : VCSInsightData :=
  { Title := w.WorkflowName ++ " #" ++ toString w.RunNumber
    Typ := "LINK"
    Text := w.Status
    Href :=
      if w.Status == V2WorkflowRunStatusSuccess then
        uiURL ++ "/project/" ++ w.ProjectKey ++ "/run/" ++ w.RunID
      else
        uiURL ++ "/project/" ++ w.ProjectKey ++ "/explore/vcs/" ++ h.VCSServerName
          ++ "/repository/" ++ pathEscape h.RepositoryName ++ "/settings" }

/-- The single aggregate dispatch item (`hooks_repository_event.go:227-235`),
built from `WorkflowHooks[0]`: total dispatch count, and a run-list link
filtered by the path-escaped ref and the path-escaped `vcs/repository` pair. -/
def aggregateWorkflowInsightData (h : HookRepositoryEvent) (uiURL : String)
    (w : HookRepositoryEventWorkflow) : VCSInsightData :=
  { Title := "Nb of workflows triggered"
    Typ := "LINK"
    Text := toString h.WorkflowHooks.length
    Href := uiURL ++ "/project/" ++ w.ProjectKey ++ "/run?workflow_ref=" ++ pathEscape w.Ref
      ++ "&repository=" ++ pathEscape (h.VCSServerName ++ "/" ++ h.RepositoryName) }

/-- The full `Datas` list of the report (`hooks_repository_event.go:180-237`):
the analysis section, then either one item per dispatch (when dispatch count
plus items produced so far is below 7) or the single aggregate item. The
aggregate branch reads `h.WorkflowHooks[0]` unguarded in Go; its
out-of-range panic is modelled as `none`. -/
def insightDatas (h : HookRepositoryEvent) (uiURL : String) : Option (List VCSInsightData) :=
  let analysisDatas := insightAnalysisDatas h uiURL
  if h.WorkflowHooks.length + analysisDatas.length < 7 then
    some (analysisDatas ++ h.WorkflowHooks.map (workflowInsightData h uiURL))
  else
    match h.WorkflowHooks with
    | [] => none
    | w :: _ => some (analysisDatas ++ [aggregateWorkflowInsightData h uiURL w])

/-- Go `func (h *HookRepositoryEvent) ToInsightReport(uiURL string) VCSInsight`
(`hooks_repository_event.go:164-239`). `none` models the Go panic on the
unguarded `h.WorkflowHooks[0]` access of the aggregate branch. -/
def HookRepositoryEvent.ToInsightReport (h : HookRepositoryEvent) (uiURL : String) :
    Option VCSInsight :=
  (insightDatas h uiURL).map (fun ds => { Title := "CDS", Detail := insightDetail h, Datas := ds })

/-! ## SHA-512, HMAC, PBKDF2, base64 (`crypto/sha512`, `crypto/hmac`,
`golang.org/x/crypto/pbkdf2`, `encoding/base64`)

64-bit words are `Nat`s kept below `2 ^ 64` by explicit reduction. The
SHA-512 round constants and initial hash values are computed from their
FIPS 180-4 definition (fractional parts of the cube / square roots of the
first primes) rather than transcribed. -/

/-- The first eighty prime numbers, as used by FIPS 180-4 for SHA-512's
constants. -/
def first80Primes : List Nat :=
  [2, 3, 5, 7, 11, 13, 17, 19, 23, 29, 31, 37, 41, 43, 47, 53, 59, 61, 67, 71,
   73, 79, 83, 89, 97, 101, 103, 107, 109, 113, 127, 131, 137, 139, 149, 151,
   157, 163, 167, 173, 179, 181, 191, 193, 197, 199, 211, 223, 227, 229, 233,
   239, 241, 251, 257, 263, 269, 271, 277, 281, 283, 293, 307, 311, 313, 317,
   331, 337, 347, 349, 353, 359, 367, 373, 379, 383, 389, 397, 401, 409]

/-- Integer cube root (largest `k` with `k ^ 3 ≤ n`), correct for
`n < 2 ^ 210`, by binary descent over 70 bits. -/
def icbrt (n : Nat) : Nat :=
  (List.range 70).foldl
    (fun acc i =>
      let cand := acc + 2 ^ (69 - i)
      if cand ^ 3 ≤ n then cand else acc)
    0

/-- SHA-512 round constants `K₀…K₇₉`: the first 64 bits of the fractional
parts of the cube roots of the first eighty primes. -/
def sha512K : List Nat :=
  first80Primes.map (fun p => icbrt (p * 2 ^ 192) % 2 ^ 64)

/-- SHA-512 initial hash value `H⁰`: the first 64 bits of the fractional
parts of the square roots of the first eight primes. -/
def sha512H0 : List Nat :=
  (first80Primes.take 8).map (fun p => Nat.sqrt (p * 2 ^ 128) % 2 ^ 64)

/-- Right rotation of a 64-bit word. -/
def rotr64 (k x : Nat) : Nat :=
  ((x >>> k) ||| (x <<< (64 - k))) % 2 ^ 64

/-- Bitwise complement of a 64-bit word. -/
def not64 (x : Nat) : Nat :=
  x ^^^ (2 ^ 64 - 1)

/-- SHA-512 `Ch(x, y, z)`. -/
def sha512Ch (x y z : Nat) : Nat :=
  (x &&& y) ^^^ (not64 x &&& z)

/-- SHA-512 `Maj(x, y, z)`. -/
def sha512Maj (x y z : Nat) : Nat :=
  (x &&& y) ^^^ (x &&& z) ^^^ (y &&& z)

/-- SHA-512 `Σ₀`. -/
def bigSigma0 (x : Nat) : Nat :=
  rotr64 28 x ^^^ rotr64 34 x ^^^ rotr64 39 x

/-- SHA-512 `Σ₁`. -/
def bigSigma1 (x : Nat) : Nat :=
  rotr64 14 x ^^^ rotr64 18 x ^^^ rotr64 41 x

/-- SHA-512 `σ₀`. -/
def smallSigma0 (x : Nat) : Nat :=
  rotr64 1 x ^^^ rotr64 8 x ^^^ (x >>> 7)

/-- SHA-512 `σ₁`. -/
def smallSigma1 (x : Nat) : Nat :=
  rotr64 19 x ^^^ rotr64 61 x ^^^ (x >>> 6)

/-- The `n`-byte big-endian encoding of `v`. -/
def beBytes (n v : Nat) : List Nat :=
  (List.range n).map (fun i => (v >>> (8 * (n - 1 - i))) % 256)

/-- A big-endian byte list read as one number. -/
def beNat (bs : List Nat) : Nat :=
  bs.foldl (fun a b => a * 256 + b) 0

/-- SHA-512 padding: append `0x80`, zeros to 112 mod 128, then the 128-bit
big-endian bit length. -/
def sha512Pad (msg : List Nat) : List Nat :=
  let l := msg.length
  msg ++ [0x80] ++ List.replicate ((239 - l % 128) % 128) 0 ++ beBytes 16 (8 * l)

/-- The 80-entry message schedule of one 16-word block. -/
def sha512Schedule (block : List Nat) : List Nat :=
  (List.range 64).foldl
    (fun w _ =>
      let t := w.length
      w ++ [(smallSigma1 (w.getD (t - 2) 0) + w.getD (t - 7) 0
        + smallSigma0 (w.getD (t - 15) 0) + w.getD (t - 16) 0) % 2 ^ 64])
    block

/-- One SHA-512 compression-function round. -/
def sha512Round (w : List Nat) (s : List Nat) (t : Nat) : List Nat :=
  match s with
  | [a, b, c, d, e, f, g, hh] =>
    let t1 := (hh + bigSigma1 e + sha512Ch e f g + sha512K.getD t 0 + w.getD t 0) % 2 ^ 64
    let t2 := (bigSigma0 a + sha512Maj a b c) % 2 ^ 64
    [(t1 + t2) % 2 ^ 64, a, b, c, (d + t1) % 2 ^ 64, e, f, g]
  | s => s

/-- SHA-512 processing of one block: 80 rounds, then addition of the
incoming hash value. -/
def sha512Compress (h : List Nat) (block : List Nat) : List Nat :=
  let w := sha512Schedule block
  let s := (List.range 80).foldl (sha512Round w) h
  List.zipWith (fun x y => (x + y) % 2 ^ 64) h s

/-- SHA-512 of a byte list, as a 64-byte list (Go `sha512.New` / `Sum`). -/
def sha512 (msg : List Nat) : List Nat :=
  let padded := sha512Pad msg
  let blocks := (List.range (padded.length / 128)).map
    (fun i =>
      let bl := (padded.drop (128 * i)).take 128
      (List.range 16).map (fun j => beNat ((bl.drop (8 * j)).take 8)))
  (blocks.foldl sha512Compress sha512H0).flatMap (beBytes 8)

/-- HMAC-SHA-512 (Go `hmac.New(sha512.New, key)`): keys longer than the
128-byte block size are hashed first, then zero-padded. -/
def hmacSha512 (key msg : List Nat) : List Nat :=
  let k1 := if 128 < key.length then sha512 key else key
  let k0 := k1 ++ List.replicate (128 - k1.length) 0
  sha512 (k0.map (fun b => b ^^^ 0x5C) ++ sha512 (k0.map (fun b => b ^^^ 0x36) ++ msg))

/-- One PBKDF2 block `T_i` (RFC 2898 / `golang.org/x/crypto/pbkdf2`):
`U₁ = PRF(password, salt ‖ INT(i))`, `U_j = PRF(password, U_{j-1})`,
`T_i = U₁ ⊕ … ⊕ U_iter`. -/
def pbkdf2Block (password salt : List Nat) (iter i : Nat) : List Nat :=
  let u1 := hmacSha512 password (salt ++ beBytes 4 i)
  ((List.range (iter - 1)).foldl
    (fun acc _ =>
      let u := hmacSha512 password acc.2
      (List.zipWith (fun a b => a ^^^ b) acc.1 u, u))
    (u1, u1)).1

/-- Go `pbkdf2.Key(password, salt, iter, keyLen, sha512.New)`. -/
def pbkdf2Key (password salt : List Nat) (iter keyLen : Nat) : List Nat :=
  (((List.range ((keyLen + 63) / 64)).map
    (fun j => pbkdf2Block password salt iter (j + 1))).flatten).take keyLen

/-- The standard base64 alphabet (RFC 4648). -/
def base64Char (n : Nat) : Char :=
  "ABCDEFGHIJKLMNOPQRSTUVWXYZabcdefghijklmnopqrstuvwxyz0123456789+/".data.getD n 'A'

/-- Go `base64.StdEncoding.EncodeToString`: standard alphabet with `=`
padding. -/
def base64StdEncode (bs : List Nat) : String :=
  let full := bs.length / 3
  let enc3 := fun (i : Nat) =>
    let n := bs.getD (3 * i) 0 * 65536 + bs.getD (3 * i + 1) 0 * 256 + bs.getD (3 * i + 2) 0
    [base64Char (n / 262144), base64Char (n / 4096 % 64),
     base64Char (n / 64 % 64), base64Char (n % 64)]
  let tail :=
    if bs.length % 3 = 1 then
      let n := bs.getD (3 * full) 0 * 65536
      [base64Char (n / 262144), base64Char (n / 4096 % 64), '=', '=']
    else if bs.length % 3 = 2 then
      let n := bs.getD (3 * full) 0 * 65536 + bs.getD (3 * full + 1) 0 * 256
      [base64Char (n / 262144), base64Char (n / 4096 % 64), base64Char (n / 64 % 64), '=']
    else []
  String.mk (((List.range full).map enc3).flatten ++ tail)

/-! ## Webhook secret derivation (`hooks_repository_event.go:398-410`) -/

/-- Go `func GenerateRepositoryWebHookSecret(hookSecretKey, pkey, vcsName,
repoName, uuid string) string` (`hooks_repository_event.go:398-403`). -/
def GenerateRepositoryWebHookSecret
    (hookSecretKey pkey vcsName repoName uuid : String) : String :=
  let pass := pkey ++ "-" ++ vcsName ++ "-" ++ repoName ++ "-" ++ uuid
  base64StdEncode (pbkdf2Key (strBytes pass) (strBytes hookSecretKey) 4096 128)

/-- Go `func GenerateWorkflowWebHookSecret(hookSecretKey, pkey, vcsName,
repoName, workflowName, uuid string) string` (`hooks_repository_event.go:405-410`). -/
def GenerateWorkflowWebHookSecret
    (hookSecretKey pkey vcsName repoName workflowName uuid : String) : String :=
  let pass := pkey ++ "-" ++ vcsName ++ "-" ++ repoName ++ "-" ++ workflowName ++ "-" ++ uuid
  base64StdEncode (pbkdf2Key (strBytes pass) (strBytes hookSecretKey) 4096 128)

/-- Reference definition following the spec's words (§4.4,
`DeriveRepositorySecret`): join the identifying fields with the separator
`-` into a passphrase, derive 128 bytes by PBKDF2 with the passphrase as
password, the master key as salt, 4096 iterations and SHA-512, and encode
in standard base64. -/
def DeriveRepositorySecret
    (masterKey projectKey vcsName repoName uuid : String) : String :=
  let passphrase := String.intercalate "-" [projectKey, vcsName, repoName, uuid]
  base64StdEncode (pbkdf2Key (strBytes passphrase) (strBytes masterKey) 4096 128)

/-- Reference definition following the spec's words (§4.4,
`DeriveWorkflowSecret`), as `DeriveRepositorySecret` with the workflow name
among the identifying fields. -/
def DeriveWorkflowSecret
    (masterKey projectKey vcsName repoName workflowName uuid : String) : String :=
  let passphrase := String.intercalate "-" [projectKey, vcsName, repoName, workflowName, uuid]
  base64StdEncode (pbkdf2Key (strBytes passphrase) (strBytes masterKey) 4096 128)

/-! ## Theorems -/

/-- The valid `(name, type)` combinations enumerated by the spec:
`pull-request` with opened/reopened/closed/edited, `pull-request-comment`
with created/deleted/edited (a reference definition following the spec's
words, to be compared with `IsValidForEventName`). -/
def claimValidCombination (n : WorkflowHookEventName) (t : WorkflowHookEventType) : Prop :=
  (n = WorkflowHookEventNamePullRequest ∧
    (t = "opened" ∨ t = "reopened" ∨ t = "closed" ∨ t = "edited")) ∨
  (n = WorkflowHookEventNamePullRequestComment ∧
    (t = "created" ∨ t = "deleted" ∨ t = "edited"))

/-- C2 (counterexample): it is not the case that `IsValidForEventName`
returns true whenever the type is empty or the pair is an enumerated valid
combination — at the concrete input `(pull-request, "")` the type is empty
yet the inner switch matches no enumerated type and the function falls
through to `return false`. -/
theorem isValidForEventName_claim_counterexample :
    ¬ (∀ (n : WorkflowHookEventName) (t : WorkflowHookEventType),
        WorkflowHookEventType.IsValidForEventName t n = true ↔
          (t = "" ∨ claimValidCombination n t)) := by
  intro hall
  have h1 := (hall WorkflowHookEventNamePullRequest "").mpr (Or.inl rfl)
  have h2 : WorkflowHookEventType.IsValidForEventName "" WorkflowHookEventNamePullRequest
      = false := by decide
  rw [h2] at h1
  exact Bool.false_ne_true h1

/-- C2 (amended): `IsValidForEventName` returns true iff `(name, type)` is
one of the enumerated valid combinations, or the type is empty and the name
is neither `pull-request` nor `pull-request-comment`; in particular
`(pull-request, "opened")` yields true, `(push, "opened")` yields false, and
`(push, "")` yields true. -/
theorem isValidForEventName_amended :
    (∀ (n : WorkflowHookEventName) (t : WorkflowHookEventType),
        WorkflowHookEventType.IsValidForEventName t n = true ↔
          (claimValidCombination n t ∨
            (t = "" ∧ n ≠ WorkflowHookEventNamePullRequest ∧
              n ≠ WorkflowHookEventNamePullRequestComment))) ∧
    WorkflowHookEventType.IsValidForEventName
      WorkflowHookEventTypePullRequestOpened WorkflowHookEventNamePullRequest = true ∧
    WorkflowHookEventType.IsValidForEventName
      WorkflowHookEventTypePullRequestOpened WorkflowHookEventNamePush = false ∧
    WorkflowHookEventType.IsValidForEventName "" WorkflowHookEventNamePush = true := by
  refine ⟨?_, by decide, by decide, by decide⟩
  intro n t
  unfold WorkflowHookEventType.IsValidForEventName claimValidCombination
  unfold WorkflowHookEventTypePullRequestOpened WorkflowHookEventTypePullRequestReopened
    WorkflowHookEventTypePullRequestClosed WorkflowHookEventTypePullRequestEdited
    WorkflowHookEventTypePullRequestCommentCreated WorkflowHookEventTypePullRequestCommentDeleted
    WorkflowHookEventTypePullRequestCommentEdited WorkflowHookEventNamePullRequest
    WorkflowHookEventNamePullRequestComment
  split_ifs with h1 h2 h3 h4 <;> simp_all

/-- C7: `IsValidForEventName` accepts exactly these classifications: for
`pull-request` the type must be opened/reopened/closed/edited, for
`pull-request-comment` it must be created/deleted/edited, and for every
other event name the type must be the empty string. -/
theorem isValidForEventName_classification :
    ∀ (n : WorkflowHookEventName) (t : WorkflowHookEventType),
      WorkflowHookEventType.IsValidForEventName t n = true ↔
        ((n = WorkflowHookEventNamePullRequest ∧
            (t = WorkflowHookEventTypePullRequestOpened ∨
             t = WorkflowHookEventTypePullRequestReopened ∨
             t = WorkflowHookEventTypePullRequestClosed ∨
             t = WorkflowHookEventTypePullRequestEdited)) ∨
         (n = WorkflowHookEventNamePullRequestComment ∧
            (t = WorkflowHookEventTypePullRequestCommentCreated ∨
             t = WorkflowHookEventTypePullRequestCommentDeleted ∨
             t = WorkflowHookEventTypePullRequestCommentEdited)) ∨
         (n ≠ WorkflowHookEventNamePullRequest ∧ n ≠ WorkflowHookEventNamePullRequestComment ∧
           t = "")) := by
  intro n t
  unfold WorkflowHookEventType.IsValidForEventName
  split_ifs with h1 h2 h3 h4 <;> simp_all [WorkflowHookEventNamePullRequest,
    WorkflowHookEventNamePullRequestComment, WorkflowHookEventTypePullRequestOpened,
    WorkflowHookEventTypePullRequestReopened, WorkflowHookEventTypePullRequestClosed,
    WorkflowHookEventTypePullRequestEdited, WorkflowHookEventTypePullRequestCommentCreated,
    WorkflowHookEventTypePullRequestCommentDeleted, WorkflowHookEventTypePullRequestCommentEdited]

/-- C8: `HookRepositoryEvent.IsTerminated` is true iff the status is Done,
Error or Skipped, and `HookRepositoryEventWorkflow.IsTerminated` is true iff
the dispatch substate is Done, Error or Skipped. -/
theorem isTerminated_iff_terminal_status :
    (∀ h : HookRepositoryEvent, h.IsTerminated = true ↔
        (h.Status = HookEventStatusDone ∨ h.Status = HookEventStatusError ∨
          h.Status = HookEventStatusSkipped)) ∧
    (∀ w : HookRepositoryEventWorkflow, w.IsTerminated = true ↔
        (w.Status = HookEventWorkflowStatusDone ∨ w.Status = HookEventWorkflowStatusError ∨
          w.Status = HookEventWorkflowStatusSkipped)) := by
  constructor
  · intro h
    simp only [HookRepositoryEvent.IsTerminated, Bool.or_eq_true, beq_iff_eq]
    tauto
  · intro w
    simp only [HookRepositoryEventWorkflow.IsTerminated, Bool.or_eq_true, beq_iff_eq]
    tauto

/-- The analysis section never contributes more than 5 items: at most one
item per analysis when there are fewer than 6 of them, exactly one item
otherwise. -/
theorem insightAnalysisDatas_length_le (h : HookRepositoryEvent) (u : String) :
    (insightAnalysisDatas h u).length ≤ 5 := by
  unfold insightAnalysisDatas
  split
  · rename_i hlt
    simpa using Nat.lt_succ_iff.mp hlt
  · split <;> simp

/-- Destructing a successfully produced report: its title is `CDS`, its
detail is `insightDetail`, and its items are the ones `insightDatas`
computed. -/
theorem toInsightReport_fields (h : HookRepositoryEvent) (u : String) (r : VCSInsight)
    (hr : HookRepositoryEvent.ToInsightReport h u = some r) :
    r.Title = "CDS" ∧ r.Detail = insightDetail h ∧ insightDatas h u = some r.Datas := by
  unfold HookRepositoryEvent.ToInsightReport at hr
  cases hds : insightDatas h u with
  | none => rw [hds] at hr; exact absurd hr (by simp)
  | some ds =>
    rw [hds] at hr
    simp only [Option.map_some', Option.some.injEq] at hr
    subst hr
    exact ⟨rfl, rfl, rfl⟩

/-- The item list is always produced: the aggregate branch (which reads
`WorkflowHooks[0]`) is only reached with a non-empty `WorkflowHooks`. -/
theorem insightDatas_isSome (h : HookRepositoryEvent) (u : String) :
    (insightDatas h u).isSome = true := by
  have halen := insightAnalysisDatas_length_le h u
  by_cases hc : h.WorkflowHooks.length + (insightAnalysisDatas h u).length < 7
  · simp only [insightDatas]
    rw [if_pos hc]
    rfl
  · cases hW : h.WorkflowHooks with
    | nil =>
      rw [hW] at hc
      simp only [List.length_nil, Nat.zero_add] at hc
      omega
    | cons w ws =>
      simp only [insightDatas]
      rw [hW] at hc
      rw [hW, if_neg hc]
      rfl

/-- C9: `ToInsightReport` never hits the out-of-range access
`WorkflowHooks[0]` (modelled as `none`): whenever the aggregate branch is
taken, the dispatch count plus the at-most-5 analysis items is at least 7,
so the `WorkflowHooks` list is non-empty. -/
theorem toInsightReport_isSome (h : HookRepositoryEvent) (u : String) :
    (HookRepositoryEvent.ToInsightReport h u).isSome = true := by
  unfold HookRepositoryEvent.ToInsightReport
  cases hds : insightDatas h u with
  | none => exact absurd (hds ▸ insightDatas_isSome h u) (by simp)
  | some ds => simp [hds]

/-- C10: every report `ToInsightReport` returns has at most 6 items in its
`Datas` list, and its `Title` is always `CDS`. -/
theorem toInsightReport_bounded (h : HookRepositoryEvent) (u : String) (r : VCSInsight)
    (hr : HookRepositoryEvent.ToInsightReport h u = some r) :
    r.Datas.length ≤ 6 ∧ r.Title = "CDS" := by
  obtain ⟨hTitle, -, hds⟩ := toInsightReport_fields h u r hr
  refine ⟨?_, hTitle⟩
  have halen := insightAnalysisDatas_length_le h u
  by_cases hc : h.WorkflowHooks.length + (insightAnalysisDatas h u).length < 7
  · simp only [insightDatas] at hds
    rw [if_pos hc] at hds
    simp only [Option.some.injEq] at hds
    rw [← hds]
    simp only [List.length_append, List.length_map]
    omega
  · cases hW : h.WorkflowHooks with
    | nil =>
      rw [hW] at hc
      simp only [List.length_nil, Nat.zero_add] at hc
      omega
    | cons w ws =>
      simp only [insightDatas] at hds
      rw [hW] at hc
      rw [hW, if_neg hc] at hds
      simp only [Option.some.injEq] at hds
      rw [← hds]
      simp only [List.length_append, List.length_singleton]
      omega

/-- C3: let `n` be the dispatch count and `m` the number of analysis items
already produced. If `n + m < 7`, the report's items after the analysis
section are exactly one item per `WorkflowHooks` entry, each titled
`<workflowName> #<runNumber>`; if `n + m ≥ 7`, they are exactly one
aggregate item whose text is the decimal string of `n` and whose link is the
run-list view filtered by the path-escaped workflow ref and the path-escaped
`<vcsServerName>/<repositoryName>`. -/
theorem toInsightReport_workflow_items (h : HookRepositoryEvent) (u : String) (r : VCSInsight)
    (hr : HookRepositoryEvent.ToInsightReport h u = some r) :
    (h.WorkflowHooks.length + (insightAnalysisDatas h u).length < 7 →
        r.Datas.drop (insightAnalysisDatas h u).length =
          h.WorkflowHooks.map (workflowInsightData h u) ∧
        ∀ w ∈ h.WorkflowHooks,
          (workflowInsightData h u w).Title = w.WorkflowName ++ " #" ++ toString w.RunNumber) ∧
    (7 ≤ h.WorkflowHooks.length + (insightAnalysisDatas h u).length →
        ∃ w₀, h.WorkflowHooks.head? = some w₀ ∧
          r.Datas.drop (insightAnalysisDatas h u).length =
            [{ Title := "Nb of workflows triggered", Typ := "LINK",
               Text := toString h.WorkflowHooks.length,
               Href := u ++ "/project/" ++ w₀.ProjectKey ++ "/run?workflow_ref="
                 ++ pathEscape w₀.Ref ++ "&repository="
                 ++ pathEscape (h.VCSServerName ++ "/" ++ h.RepositoryName) }]) := by
  obtain ⟨-, -, hds⟩ := toInsightReport_fields h u r hr
  have halen := insightAnalysisDatas_length_le h u
  by_cases hc : h.WorkflowHooks.length + (insightAnalysisDatas h u).length < 7
  · refine ⟨fun _ => ⟨?_, fun w _ => rfl⟩, fun hge => absurd hc (by omega)⟩
    simp only [insightDatas] at hds
    rw [if_pos hc] at hds
    simp only [Option.some.injEq] at hds
    rw [← hds, List.drop_left]
  · refine ⟨fun hlt => absurd hlt hc, fun _ => ?_⟩
    cases hW : h.WorkflowHooks with
    | nil =>
      rw [hW] at hc
      simp only [List.length_nil, Nat.zero_add] at hc
      omega
    | cons w ws =>
      simp only [insightDatas] at hds
      rw [hW] at hc
      rw [hW, if_neg hc] at hds
      simp only [Option.some.injEq] at hds
      refine ⟨w, rfl, ?_⟩
      rw [← hds, List.drop_left]
      simp only [aggregateWorkflowInsightData, hW]

/-- C4: when there are at most 5 analyses, the analysis section is exactly
one LINK item per analysis (in order, titled `Analysis on <project>` and
linking to that project's repository settings view), and it forms the front
of the report's items; when there are 6 or more, it is exactly one such item
built from the first analysis. -/
theorem toInsightReport_analysis_items (h : HookRepositoryEvent) (u : String) (r : VCSInsight)
    (hr : HookRepositoryEvent.ToInsightReport h u = some r) :
    (h.Analyses.length ≤ 5 →
        insightAnalysisDatas h u = h.Analyses.map (analysisInsightData h u) ∧
        ∀ a ∈ h.Analyses,
          (analysisInsightData h u a).Typ = "LINK" ∧
          (analysisInsightData h u a).Title = "Analysis on " ++ a.ProjectKey ∧
          (analysisInsightData h u a).Href = u ++ "/project/" ++ a.ProjectKey ++ "/explore/vcs/"
            ++ h.VCSServerName ++ "/repository/" ++ pathEscape h.RepositoryName ++ "/settings") ∧
    (6 ≤ h.Analyses.length →
        ∃ a₀, h.Analyses.head? = some a₀ ∧
          insightAnalysisDatas h u = [analysisInsightData h u a₀] ∧
          (analysisInsightData h u a₀).Typ = "LINK") ∧
    r.Datas.take (insightAnalysisDatas h u).length = insightAnalysisDatas h u := by
  obtain ⟨-, -, hds⟩ := toInsightReport_fields h u r hr
  refine ⟨fun hle => ⟨?_, fun a _ => ⟨rfl, rfl, rfl⟩⟩, fun hge => ?_, ?_⟩
  · unfold insightAnalysisDatas
    rw [if_pos (by omega)]
  · cases hA : h.Analyses with
    | nil => rw [hA] at hge; simp at hge
    | cons a as =>
      refine ⟨a, rfl, ?_, rfl⟩
      unfold insightAnalysisDatas
      rw [hA] at hge
      rw [if_neg (by rw [hA]; omega), hA]
  · have halen := insightAnalysisDatas_length_le h u
    by_cases hc : h.WorkflowHooks.length + (insightAnalysisDatas h u).length < 7
    · simp only [insightDatas] at hds
      rw [if_pos hc] at hds
      simp only [Option.some.injEq] at hds
      rw [← hds, List.take_left]
    · cases hW : h.WorkflowHooks with
      | nil =>
        rw [hW] at hc
        simp only [List.length_nil, Nat.zero_add] at hc
        omega
      | cons w ws =>
        simp only [insightDatas] at hds
        rw [hW] at hc
        rw [hW, if_neg hc] at hds
        simp only [Option.some.injEq] at hds
        rw [← hds, List.take_left]

/-- `String.join` splits off its head. -/
theorem str_join_cons (x : String) (xs : List String) :
    String.join (x :: xs) = x ++ String.join xs := by
  apply String.ext
  simp [String.join_eq, String.data_append]

/-- A left fold that conditionally appends line fragments equals the start
string followed by the joined fragments. -/
theorem foldl_detail_eq_join (l : List HookRepositoryEventAnalysis) (d : String) :
    l.foldl
      (fun d a =>
        if a.Error ≠ "" then d ++ ("\n\nOn project " ++ a.ProjectKey ++ ": " ++ a.Error) else d)
      d
      = d ++ String.join (l.map fun a =>
          if a.Error ≠ "" then "\n\nOn project " ++ a.ProjectKey ++ ": " ++ a.Error else "") := by
  induction l generalizing d with
  | nil => simp [String.join, String.append_empty]
  | cons a l ih =>
    simp only [List.foldl_cons, List.map_cons, str_join_cons]
    by_cases ha : a.Error ≠ ""
    · rw [if_pos ha, if_pos ha, ih, String.append_assoc]
    · rw [if_neg ha, if_neg ha, ih, String.empty_append]

/-- C6: the report's detail begins with `Event "<name>" (<uuid>): <stage>`;
when the status is not Done the last error is appended after a blank line;
when the status is Done an `On project <key>: <error>` line is appended for
every analysis whose error is non-empty, in order. -/
theorem toInsightReport_detail (h : HookRepositoryEvent) (u : String) (r : VCSInsight)
    (hr : HookRepositoryEvent.ToInsightReport h u = some r) :
    (∃ rest, r.Detail =
        "Event " ++ goQuote h.EventName ++ " (" ++ h.UUID ++ "): " ++ h.Status ++ rest) ∧
    (h.Status ≠ HookEventStatusDone →
        r.Detail = "Event " ++ goQuote h.EventName ++ " (" ++ h.UUID ++ "): " ++ h.Status
          ++ "\n\n" ++ h.LastError) ∧
    (h.Status = HookEventStatusDone →
        r.Detail = "Event " ++ goQuote h.EventName ++ " (" ++ h.UUID ++ "): " ++ h.Status
          ++ String.join (h.Analyses.map fun a =>
              if a.Error ≠ "" then "\n\nOn project " ++ a.ProjectKey ++ ": " ++ a.Error else "")) := by
  obtain ⟨-, hdet, -⟩ := toInsightReport_fields h u r hr
  have hne : h.Status ≠ HookEventStatusDone →
      r.Detail = "Event " ++ goQuote h.EventName ++ " (" ++ h.UUID ++ "): " ++ h.Status
        ++ "\n\n" ++ h.LastError := by
    intro hs
    rw [hdet]
    unfold insightDetail
    rw [if_pos hs, String.append_assoc]
  have heq : h.Status = HookEventStatusDone →
      r.Detail = "Event " ++ goQuote h.EventName ++ " (" ++ h.UUID ++ "): " ++ h.Status
        ++ String.join (h.Analyses.map fun a =>
            if a.Error ≠ "" then "\n\nOn project " ++ a.ProjectKey ++ ": " ++ a.Error else "") := by
    intro hs
    rw [hdet]
    unfold insightDetail
    rw [if_neg (by simp [hs]), foldl_detail_eq_join]
  refine ⟨?_, hne, heq⟩
  by_cases hs : h.Status = HookEventStatusDone
  · exact ⟨_, by rw [heq hs, String.append_assoc]⟩
  · exact ⟨_, by rw [hne hs, String.append_assoc, String.append_assoc]⟩

/-- C5: both secret generators equal the spec's reference derivation
(separator `-`, PBKDF2 with the passphrase as password and the master key as
salt, 4096 iterations, 128 bytes, SHA-512, standard base64), and each is
deterministic: identical inputs always yield identical output. -/
theorem generateWebHookSecret_spec :
    (∀ hookSecretKey pkey vcsName repoName uuid : String,
        GenerateRepositoryWebHookSecret hookSecretKey pkey vcsName repoName uuid =
          DeriveRepositorySecret hookSecretKey pkey vcsName repoName uuid) ∧
    (∀ hookSecretKey pkey vcsName repoName workflowName uuid : String,
        GenerateWorkflowWebHookSecret hookSecretKey pkey vcsName repoName workflowName uuid =
          DeriveWorkflowSecret hookSecretKey pkey vcsName repoName workflowName uuid) ∧
    (∀ k p v n u k₂ p₂ v₂ n₂ u₂ : String, k = k₂ → p = p₂ → v = v₂ → n = n₂ → u = u₂ →
        GenerateRepositoryWebHookSecret k p v n u =
          GenerateRepositoryWebHookSecret k₂ p₂ v₂ n₂ u₂) ∧
    (∀ k p v n w u k₂ p₂ v₂ n₂ w₂ u₂ : String,
        k = k₂ → p = p₂ → v = v₂ → n = n₂ → w = w₂ → u = u₂ →
        GenerateWorkflowWebHookSecret k p v n w u =
          GenerateWorkflowWebHookSecret k₂ p₂ v₂ n₂ w₂ u₂) := by
  refine ⟨fun _ _ _ _ _ => rfl, fun _ _ _ _ _ _ => rfl, ?_, ?_⟩
  · intro k p v n u k₂ p₂ v₂ n₂ u₂ hk hp hv hn hu
    rw [hk, hp, hv, hn, hu]
  · intro k p v n w u k₂ p₂ v₂ n₂ w₂ u₂ hk hp hv hn hw hu
    rw [hk, hp, hv, hn, hw, hu]

/-- C5 (witness): the determinism clause applied at concrete inputs. -/
theorem generateWebHookSecret_spec_witness :
    ("master-key" : String) = "master-key" ∧
    GenerateRepositoryWebHookSecret "master-key" "PROJ" "github" "org/repo" "uuid-1" =
      GenerateRepositoryWebHookSecret "master-key" "PROJ" "github" "org/repo" "uuid-1" :=
  ⟨rfl, generateWebHookSecret_spec.2.2.1 "master-key" "PROJ" "github" "org/repo" "uuid-1"
      "master-key" "PROJ" "github" "org/repo" "uuid-1" rfl rfl rfl rfl rfl⟩

/-- An event with no analyses at all: the input on which the
zero-analyses reporting path is exercised. -/
def noAnalysisEvent : HookRepositoryEvent :=
  { UUID := "uuid-0"
    EventName := WorkflowHookEventNamePush
    VCSServerName := "github"
    RepositoryName := "org/repo"
    Status := HookEventStatusDone
    Analyses := []
    WorkflowHooks := [] }

/-- C1 (code behaviour at the failing input): with zero analyses (and no
workflow dispatches) the report's `Datas` list is empty — no TEXT item with
text `"0"` is ever emitted, because the zero-analyses `else` branch of the
analysis section sits behind `len(Analyses) ≥ 6` and is unreachable. -/
theorem toInsightReport_zero_analyses_no_text_item :
    ∀ u : String,
      (HookRepositoryEvent.ToInsightReport noAnalysisEvent u).map (fun r => r.Datas)
        = some [] :=
  fun _ => rfl

/-- A sample event: status Error, two analyses, two workflow dispatches. -/
def sampleEvent : HookRepositoryEvent :=
  { UUID := "uuid-1"
    EventName := WorkflowHookEventNamePush
    VCSServerName := "github"
    RepositoryName := "org/repo"
    Status := HookEventStatusError
    LastError := "analysis failed"
    Analyses :=
      [{ AnalyzeID := "an-1", Status := "Success", ProjectKey := "PROJ1" },
       { AnalyzeID := "an-2", Status := "Error", ProjectKey := "PROJ2", Error := "boom" }]
    WorkflowHooks :=
      [{ ProjectKey := "PROJ1", WorkflowName := "build", Ref := "refs/heads/main",
         Status := "Success", RunID := "run-1", RunNumber := 3 },
       { ProjectKey := "PROJ2", WorkflowName := "deploy", Ref := "refs/heads/main",
         Status := "Error", RunNumber := 1 }] }

/-- The report `ToInsightReport` produces on `sampleEvent`. -/
def sampleReport : VCSInsight :=
  (HookRepositoryEvent.ToInsightReport sampleEvent "https://cds").getD {}

/-- C10 (witness): the bound and title at a concrete event. -/
theorem toInsightReport_bounded_witness :
    sampleReport.Datas.length ≤ 6 ∧ sampleReport.Title = "CDS" :=
  toInsightReport_bounded sampleEvent "https://cds" sampleReport rfl

/-- C3 (witness): two dispatches plus two analysis items stay below the
threshold, so the items after the analysis section are the two per-dispatch
items. -/
theorem toInsightReport_workflow_items_witness :
    sampleReport.Datas.drop (insightAnalysisDatas sampleEvent "https://cds").length =
      sampleEvent.WorkflowHooks.map (workflowInsightData sampleEvent "https://cds") :=
  ((toInsightReport_workflow_items sampleEvent "https://cds" sampleReport rfl).1
    (by decide)).1

/-- C4 (witness): with two analyses the analysis section is one LINK item
per analysis. -/
theorem toInsightReport_analysis_items_witness :
    insightAnalysisDatas sampleEvent "https://cds" =
      sampleEvent.Analyses.map (analysisInsightData sampleEvent "https://cds") :=
  ((toInsightReport_analysis_items sampleEvent "https://cds" sampleReport rfl).1
    (by decide)).1

/-- C6 (witness): on the Error-status sample event the detail is the header
followed by the last error. -/
theorem toInsightReport_detail_witness :
    sampleReport.Detail = "Event " ++ goQuote sampleEvent.EventName ++ " ("
      ++ sampleEvent.UUID ++ "): " ++ sampleEvent.Status ++ "\n\n" ++ sampleEvent.LastError :=
  (toInsightReport_detail sampleEvent "https://cds" sampleReport rfl).2.1 (by decide)

end CdsSdk
